import Mathlib

/-!
Verification development for the Smart Emergency Traffic Monitoring and
Routing System (browser prototype, src/script.js).

The JavaScript source is shallowly embedded:
  * coordinates, distances and segment progress are rationals (the script's
    numeric literals are exact decimals, and the control logic only compares
    distances, so the embedding is parameterised over the distance function
    where the float haversine value itself does not matter);
  * the haversine distance itself (claim C9) is embedded over the reals;
  * JavaScript null is Option.none, Infinity on the minimum-distance field is
    Option.none, and the mutable module-level simulation state is an explicit
    Sim structure threaded through the tick functions;
  * Array.prototype.sort (stable per ECMA-262) is modelled by the stable
    List.insertionSort.
-/

/-- Points are (latitude, longitude) pairs; rationals in the simulator embedding. -/
abbrev Pt : Type := ℚ × ℚ

/-- Traffic levels, the strings 'Low' / 'Medium' / 'High' of the script. -/
inductive Traffic : Type
  | Low
  | Medium
  | High
deriving DecidableEq, Repr

/-- SIGNAL_STATE: the two signal modes (Normal Traffic Mode / Green for Ambulance). -/
inductive SigMode : Type
  | normal
  | override
deriving DecidableEq, Repr, Inhabited

/-- TICK_MS constant. -/
def TICK_MS : ℚ := 200

/-- SEGMENT_TIME_MS constant. -/
def SEGMENT_TIME_MS : ℚ := 4200

/-- STEP = TICK_MS / SEGMENT_TIME_MS. -/
def STEP : ℚ := TICK_MS / SEGMENT_TIME_MS

/-- ADVANCE_DETECTION_KM threshold. -/
def ADVANCE_DETECTION_KM : ℚ := 3.0

/-- OVERRIDE_START_KM threshold. -/
def OVERRIDE_START_KM : ℚ := 0.40

/-- OVERRIDE_END_KM threshold. -/
def OVERRIDE_END_KM : ℚ := 0.15

/-- CITY_CENTER coordinate (Karur). -/
def CITY_CENTER : Pt := (10.9601, 78.0766)

/-- Route record: id, display name, tag, static baseline traffic, waypoints. -/
structure Route : Type where
  id : String
  name : String
  tag : String
  baseTraffic : Traffic
  coords : List Pt
deriving DecidableEq, Repr

/-- ROUTES.fastest from the catalog. -/
def routeFastest : Route :=
  { id := "fastest"
    name := "Fastest Route"
    tag := "Recommended – Low Traffic"
    baseTraffic := .Low
    coords :=
      [ (10.9488, 78.0690), (10.9526, 78.0718), (10.9562, 78.0742), (10.9591, 78.0762)
      , (10.9622, 78.0783), (10.9652, 78.0810), (10.9680, 78.0840), (10.9712, 78.0873) ] }

/-- ROUTES.alternative from the catalog. -/
def routeAlternative : Route :=
  { id := "alternative"
    name := "Alternative Route"
    tag := "Medium Traffic"
    baseTraffic := .Medium
    coords :=
      [ (10.9488, 78.0690), (10.9504, 78.0750), (10.9536, 78.0812), (10.9578, 78.0860)
      , (10.9630, 78.0892), (10.9686, 78.0903), (10.9712, 78.0873) ] }

/-- ROUTES.shortest from the catalog. -/
def routeShortest : Route :=
  { id := "shortest"
    name := "Shortest Distance Route"
    tag := "High Traffic"
    baseTraffic := .High
    coords :=
      [ (10.9488, 78.0690), (10.9548, 78.0736), (10.9606, 78.0780)
      , (10.9662, 78.0827), (10.9712, 78.0873) ] }

/-- ROUTES[routeId] lookup (the catalog has exactly the three keys). -/
def findRoute (routeId : String) : Option Route :=
  if routeId = "fastest" then some routeFastest
  else if routeId = "alternative" then some routeAlternative
  else if routeId = "shortest" then some routeShortest
  else none

/-- SIGNAL_DEFS: the three demo signals (id, location). -/
def SIGNAL_DEFS : List (String × Pt) :=
  [ ("S1", (10.9558, 78.0748))
  , ("S2", (10.9639, 78.0795))
  , ("S3", (10.9696, 78.0856)) ]

/-- predictTrafficLevel: rule-based traffic level from the accident-location key
and the current hour (the script reads the hour from the wall clock; it is a
parameter here). -/
def predictTrafficLevel (accidentKey : String) (hour : ℕ) : Traffic :=
  let peak : Bool := (8 ≤ hour ∧ hour ≤ 10) ∨ (17 ≤ hour ∧ hour ≤ 19)
  let bias : ℕ :=
    if accidentKey = "guindy" then 1
    else if accidentKey = "tnagar" then 2
    else if accidentKey = "egmore" then 2
    else if accidentKey = "central" then 3
    else 1
  let score : ℕ := (if peak then 2 else 0) + bias
  if 4 ≤ score then .High
  else if 3 ≤ score then .Medium
  else .Low

/-- Modelled from the spec wording of §4.2, for comparison with the source
function: peak iff hour in [8,10] or [17,19]; fixed bias per key with default 1;
score = (2 if peak else 0) + bias; High if score ≥ 4, Medium if score ≥ 3,
else Low. -/
def predictTrafficLevelSpec (accidentKey : String) (hour : ℕ) : Traffic :=
  let peak : Bool := (8 ≤ hour ∧ hour ≤ 10) ∨ (17 ≤ hour ∧ hour ≤ 19)
  let bias : ℕ :=
    if accidentKey = "guindy" then 1
    else if accidentKey = "tnagar" then 2
    else if accidentKey = "egmore" then 2
    else if accidentKey = "central" then 3
    else 1
  let score : ℕ := (if peak then 2 else 0) + bias
  if score ≥ 4 then .High else if score ≥ 3 then .Medium else .Low

/-- Traffic multiplier of estimatedTimeMinutes (ternary chain in the source:
Low 1.0, Medium 1.25, anything else 1.55). -/
def trafficMult (trafficLevel : Traffic) : ℚ :=
  if trafficLevel = .Low then 1.0 else if trafficLevel = .Medium then 1.25 else 1.55

/-- estimatedTimeMinutes: (distance / 35 km/h) * 60 minutes, times the traffic
multiplier. -/
def estimatedTimeMinutes (distance : ℚ) (trafficLevel : Traffic) : ℚ :=
  let baseSpeed : ℚ := 35
  let baseMinutes : ℚ := (distance / baseSpeed) * 60
  baseMinutes * trafficMult trafficLevel

/-- polylineDistanceKm: sum of consecutive-point distances, parameterised over
the point-to-point distance function. -/
def polylineDistanceKm (dist : Pt → Pt → ℚ) : List Pt → ℚ
  | a :: b :: rest => dist a b + polylineDistanceKm dist (b :: rest)
  | _ => 0

/-- Severity rank used by the route-card sort comparator (Low 1, Medium 2, High 3). -/
def tRank (x : Traffic) : ℕ :=
  if x = .Low then 1 else if x = .Medium then 2 else 3

/-- Adjustment of a route's baseline traffic toward the predicted level
(the adjust closure inside buildRouteCards). -/
def adjustTraffic (predictedTraffic base : Traffic) : Traffic :=
  if predictedTraffic = .High ∧ base = .Low then .Medium
  else if predictedTraffic = .High ∧ base = .Medium then .High
  else if predictedTraffic = .Low ∧ base = .High then .Medium
  else base

/-- Annotated route card data (the fields of the routeList entries that the
ranking and selection read). -/
structure RouteCard : Type where
  id : String
  name : String
  baseTraffic : Traffic
  distance : ℚ
  traffic : Traffic
  timeMin : ℚ
deriving DecidableEq, Repr

/-- Order induced by the sort comparator in buildRouteCards: ascending severity
rank, ties by ascending estimated time. -/
def cardLE (a b : RouteCard) : Prop :=
  tRank a.traffic < tRank b.traffic ∨
    (tRank a.traffic = tRank b.traffic ∧ a.timeMin ≤ b.timeMin)

instance : DecidableRel cardLE := fun a b => by
  unfold cardLE; infer_instance

instance : IsTotal RouteCard cardLE where
  total a b := by
    unfold cardLE
    rcases Nat.lt_trichotomy (tRank a.traffic) (tRank b.traffic) with h | h | h
    · exact Or.inl (Or.inl h)
    · rcases le_total a.timeMin b.timeMin with ht | ht
      · exact Or.inl (Or.inr ⟨h, ht⟩)
      · exact Or.inr (Or.inr ⟨h.symm, ht⟩)
    · exact Or.inr (Or.inl h)

instance : IsTrans RouteCard cardLE where
  trans a b c hab hbc := by
    unfold cardLE at *
    rcases hab with h1 | ⟨h1, h1t⟩ <;> rcases hbc with h2 | ⟨h2, h2t⟩
    · exact Or.inl (h1.trans h2)
    · exact Or.inl (h2 ▸ h1)
    · exact Or.inl (h1 ▸ h2)
    · exact Or.inr ⟨h1.trans h2, h1t.trans h2t⟩

/-- The per-route annotation step of buildRouteCards: distance, adjusted
traffic and estimated time. -/
def routeCardOf (dist : Pt → Pt → ℚ) (predictedTraffic : Traffic) (r : Route) :
    RouteCard :=
  { id := r.id, name := r.name, baseTraffic := r.baseTraffic
    distance := polylineDistanceKm dist r.coords
    traffic := adjustTraffic predictedTraffic r.baseTraffic
    timeMin := estimatedTimeMinutes (polylineDistanceKm dist r.coords)
      (adjustTraffic predictedTraffic r.baseTraffic) }

/-- The annotated, ranked route list built by buildRouteCards: map the three
catalog routes to cards, then stable-sort by (severity rank, time). -/
def buildRouteList (dist : Pt → Pt → ℚ) (predictedTraffic : Traffic) : List RouteCard :=
  List.insertionSort cardLE
    ([routeFastest, routeAlternative, routeShortest].map (routeCardOf dist predictedTraffic))

/-- recommendedId: id of the top-ranked route card. -/
def recommendedId (dist : Pt → Pt → ℚ) (predictedTraffic : Traffic) : Option String :=
  (buildRouteList dist predictedTraffic).head?.map (·.id)

example : predictTrafficLevel "central" 9 = .High := by decide
example : predictTrafficLevel "guindy" 12 = .Low := by decide
example : STEP = 1 / 21 := by norm_num [STEP, TICK_MS, SEGMENT_TIME_MS]

/-- Per-signal runtime state for the current drive (the signalRuntime entries;
the marker field is rendering-only and omitted; null is none and the Infinity
initial value of minDistance is none). -/
structure SignalRT : Type where
  id : String
  location : Pt
  state : SigMode
  nearestIndex : Option ℕ
  minDistance : Option ℚ
  lastDistance : Option ℚ
  advanceTriggered : Bool
  overrideActive : Bool
  passed : Bool
deriving DecidableEq, Repr, Inhabited

/-- The module-level mutable simulation state: drive session fields, the
signalRuntime array, and the UI indicators the core writes (advance-detection
text, auto-control text, route highlight, shown signal id and mode, the
distance readout, emergency pill, event log). Map rendering is out of scope. -/
structure Sim : Type where
  isDriving : Bool
  timerOn : Bool
  currentIndex : ℕ
  segmentProgress : ℚ
  selectedRouteId : Option String
  signals : List SignalRT
  ambulancePos : Pt
  advanceDetectionUI : Bool
  autoControlUI : Bool
  routeHighlightOn : Bool
  shownSignalId : Option String
  shownMode : SigMode
  shownDistance : Option ℚ
  emergencyMode : Bool
  eventLog : List String
deriving DecidableEq, Repr

/-- Initial signalRuntime entries built from SIGNAL_DEFS. -/
def initialSignals : List SignalRT :=
  SIGNAL_DEFS.map fun s =>
    { id := s.1, location := s.2, state := .normal, nearestIndex := none
      minDistance := none, lastDistance := none
      advanceTriggered := false, overrideActive := false, passed := false }

/-- Module-level state right after script load (before resetDriveState runs). -/
def initSim : Sim :=
  { isDriving := false, timerOn := false, currentIndex := 0, segmentProgress := 0
    selectedRouteId := none, signals := initialSignals, ambulancePos := CITY_CENTER
    advanceDetectionUI := false, autoControlUI := false, routeHighlightOn := false
    shownSignalId := none, shownMode := .normal, shownDistance := none
    emergencyMode := false, eventLog := [] }

/-- interpolatePoint: linear interpolation between points a and b at fraction t. -/
def interpolatePoint (a b : Pt) (t : ℚ) : Pt :=
  (a.1 + (b.1 - a.1) * t, a.2 + (b.2 - a.2) * t)

/-- setSignalStateFor: set the signal's mode, the shown signal id and mode
(signalId / signalMode DOM text; marker icon and row rendering omitted). -/
def setSignalStateFor (st : Sim) (s : SignalRT) (m : SigMode) : Sim × SignalRT :=
  ({ st with shownSignalId := some s.id, shownMode := m }, { s with state := m })

/-- setAllSignalsNormal: clear every signal's runtime fields to the initial
values and reset the shown signal id and mode. -/
def setAllSignalsNormal (st : Sim) : Sim :=
  { st with
    signals := st.signals.map fun s =>
      { s with state := .normal, advanceTriggered := false, overrideActive := false
               passed := false, minDistance := none, lastDistance := none
               nearestIndex := none }
    shownSignalId := none, shownMode := .normal }

/-- resetDriveState: stop the timer, clear the drive session, clear all signal
runtime state and the UI indicators. -/
def resetDriveState (st : Sim) : Sim :=
  let st1 := { st with timerOn := false, isDriving := false
                       currentIndex := 0, segmentProgress := 0 }
  let st2 := setAllSignalsNormal st1
  { st2 with advanceDetectionUI := false, shownDistance := none, autoControlUI := false
             shownSignalId := none, shownMode := .normal }

/-- handleAdvanceDetectionFor: fire the 3 km advance detection once per signal. -/
def handleAdvanceDetectionFor (st : Sim) (s : SignalRT) (distanceToSignalKm : ℚ) :
    Sim × SignalRT :=
  if s.advanceTriggered then (st, s)
  else if distanceToSignalKm ≤ ADVANCE_DETECTION_KM then
    ({ st with advanceDetectionUI := true, autoControlUI := true, routeHighlightOn := true
               eventLog := (s.id ++ ": 3 km detection triggered. Preparing signal override.")
                 :: st.eventLog },
     { s with advanceTriggered := true })
  else (st, s)

/-- handleSignalOverrideFor: switch the signal to Override when within 0.40 km. -/
def handleSignalOverrideFor (st : Sim) (s : SignalRT) (distanceToSignalKm : ℚ) :
    Sim × SignalRT :=
  if s.overrideActive = false ∧ distanceToSignalKm ≤ OVERRIDE_START_KM then
    let s1 := { s with overrideActive := true }
    let p := setSignalStateFor st s1 .override
    ({ p.1 with eventLog := (s1.id ++ ": Signal override ON (Green for Ambulance).")
        :: p.1.eventLog }, p.2)
  else (st, s)

/-- Crossing effects shared by the primary rule and the fallback rule of
handleAfterCrossingFor: mark passed, clear override, set the signal back to
Normal, clear auto-control, advance-detection and highlight, log, and record
the current distance as lastDistance. -/
def crossingEffects (st : Sim) (s : SignalRT) (distanceToSignalKm : ℚ) :
    Sim × SignalRT :=
  let s1 := { s with passed := true, overrideActive := false }
  let p := setSignalStateFor st s1 .normal
  ({ p.1 with autoControlUI := false, advanceDetectionUI := false, routeHighlightOn := false
              eventLog := (s1.id ++ ": Ambulance crossed signal. Override OFF, normal resumed.")
                :: p.1.eventLog },
   { p.2 with lastDistance := some distanceToSignalKm })

/-- closeEnough condition of the primary crossing rule: the minimum distance
ever recorded is at most OVERRIDE_START_KM (false while still Infinity). -/
def closeEnough (s : SignalRT) : Prop :=
  match s.minDistance with
  | none => False
  | some m => m ≤ OVERRIDE_START_KM

instance (s : SignalRT) : Decidable (closeEnough s) := by
  unfold closeEnough; cases s.minDistance <;> exact inferInstanceAs (Decidable _)

/-- movingAwayFromMin condition of the primary crossing rule: the current
distance exceeds the recorded minimum by more than 0.03 km (~30 m buffer). -/
def movingAwayFromMin (s : SignalRT) (distanceToSignalKm : ℚ) : Prop :=
  match s.minDistance with
  | none => False
  | some m => distanceToSignalKm > m + 0.03

instance (s : SignalRT) (d : ℚ) : Decidable (movingAwayFromMin s d) := by
  unfold movingAwayFromMin; cases s.minDistance <;> exact inferInstanceAs (Decidable _)

/-- passedIndex condition of the primary crossing rule: the ambulance's
waypoint index is past the signal's precomputed nearest index, or equals it
with at least 60% segment progress (false when nearestIndex is not a number). -/
def passedIndex (st : Sim) (s : SignalRT) : Prop :=
  match s.nearestIndex with
  | none => False
  | some ni => st.currentIndex > ni ∨ (st.currentIndex = ni ∧ st.segmentProgress ≥ 0.6)

instance (st : Sim) (s : SignalRT) : Decidable (passedIndex st s) := by
  unfold passedIndex; cases s.nearestIndex <;> exact inferInstanceAs (Decidable _)

/-- handleAfterCrossingFor: crossing / override-end detection.  On the first
evaluation (lastDistance null) only the current distance is recorded.  The
primary rule uses the minimum distance and the waypoint-index test; the
fallback rule compares against the last recorded distance. -/
def handleAfterCrossingFor (st : Sim) (s : SignalRT) (distanceToSignalKm : ℚ) :
    Sim × SignalRT :=
  if s.passed then (st, s)
  else
    match s.lastDistance with
    | none => (st, { s with lastDistance := some distanceToSignalKm })
    | some last =>
      if s.overrideActive = true ∧ closeEnough s ∧
          (movingAwayFromMin s distanceToSignalKm ∨ passedIndex st s) then
        crossingEffects st s distanceToSignalKm
      else
        -- fallback (older logic): gotClose, movingAway, and the 0.15 km floor
        if s.overrideActive = true ∧ last ≤ OVERRIDE_START_KM ∧ distanceToSignalKm > last ∧
            distanceToSignalKm ≥ OVERRIDE_END_KM then
          crossingEffects st s distanceToSignalKm
        else (st, { s with lastDistance := some distanceToSignalKm })

/-- Candidate filter of getNextSignal: not passed and nearestIndex is a number.
The candidates carry their position in the signalRuntime array (JS works with
object references; the index plays that role here). -/
def isCandidate (p : ℕ × SignalRT) : Bool :=
  !p.2.passed && p.2.nearestIndex.isSome

/-- Comparator order of the getNextSignal sort: ascending nearestIndex. -/
def signalLE (a b : ℕ × SignalRT) : Prop :=
  a.2.nearestIndex.getD 0 ≤ b.2.nearestIndex.getD 0

instance : DecidableRel signalLE := fun a b => by
  unfold signalLE; infer_instance

instance : IsTotal (ℕ × SignalRT) signalLE where
  total _ _ := Nat.le_total _ _

instance : IsTrans (ℕ × SignalRT) signalLE where
  trans _ _ _ hab hbc := Nat.le_trans hab hbc

/-- Loop predicate of getNextSignal: currentIndex ≤ nearestIndex + 1. -/
def aheadOf (ci : ℕ) (p : ℕ × SignalRT) : Bool :=
  decide (ci ≤ p.2.nearestIndex.getD 0 + 1)

/-- Candidates of getNextSignal before sorting: indexed signals that are not
passed and have a computed nearestIndex. -/
def candidatesOf (st : Sim) : List (ℕ × SignalRT) :=
  st.signals.enum.filter isCandidate

/-- Candidates of getNextSignal in ascending nearestIndex order. -/
def sortedCandidatesOf (st : Sim) : List (ℕ × SignalRT) :=
  List.insertionSort signalLE (candidatesOf st)

/-- Shorthand for the nearestIndex of an indexed candidate. -/
def nIdx (p : ℕ × SignalRT) : ℕ :=
  p.2.nearestIndex.getD 0

/-- getNextSignal: filter un-passed signals with a computed nearestIndex, sort
ascending by nearestIndex (stable, as Array.prototype.sort), return the first
with currentIndex ≤ nearestIndex + 1, else the last candidate, else none. -/
def getNextSignal (st : Sim) : Option (ℕ × SignalRT) :=
  match (sortedCandidatesOf st).find? (aheadOf st.currentIndex) with
  | some p => some p
  | none => (sortedCandidatesOf st).getLast?

/-- Progress/index update of driveTick: add STEP to the segment progress; on
reaching 1, advance the waypoint index and reset the progress to 0. -/
def stepProgress (i : ℕ) (p : ℚ) : ℕ × ℚ :=
  if p + STEP ≥ 1 then (i + 1, 0) else (i, p + STEP)

/-- Condition for updating the running minimum distance: the fresh distance is
below the recorded minimum (always true against the initial Infinity). -/
def improvesMin (o : Option ℚ) (d : ℚ) : Prop :=
  match o with
  | none => True
  | some m => d < m

instance (o : Option ℚ) (d : ℚ) : Decidable (improvesMin o d) := by
  unfold improvesMin; cases o <;> exact inferInstanceAs (Decidable _)

/-- The three consecutive transition-handler calls of driveTick. -/
def runHandlers (st : Sim) (s : SignalRT) (distKm : ℚ) : Sim × SignalRT :=
  let p1 := handleAdvanceDetectionFor st s distKm
  let p2 := handleSignalOverrideFor p1.1 p1.2 distKm
  handleAfterCrossingFor p2.1 p2.2 distKm

/-- Distance computation, minDistance folding, shown-status update and the
three handler calls of driveTick for the selected next signal, before the
updated signal is written back into the array. -/
def trackedPair (dist : Pt → Pt → ℚ) (st : Sim) (s0 : SignalRT) : Sim × SignalRT :=
  let distKm := dist st.ambulancePos s0.location
  let s1 :=
    if improvesMin s0.minDistance distKm then { s0 with minDistance := some distKm }
    else s0
  let st1 := { st with shownDistance := some distKm
                       shownSignalId := some s1.id, shownMode := s1.state }
  runHandlers st1 s1 distKm

/-- Signal-handling tail of driveTick for the selected next signal: compute the
distance, fold it into minDistance, update the shown distance / id / mode, run
the three transition handlers, and write the signal back at its index. -/
def processSignal (dist : Pt → Pt → ℚ) (st : Sim) (i : ℕ) (s0 : SignalRT) : Sim :=
  { (trackedPair dist st s0).1 with
    signals := (trackedPair dist st s0).1.signals.set i (trackedPair dist st s0).2 }

/-- Movement phase of driveTick: grab the waypoint pair at the pre-tick index,
advance progress (possibly wrapping to the next index), and interpolate the
displayed position from that pre-tick pair at the updated progress. -/
def movedState (st : Sim) (route : Route) : Sim :=
  let a := route.coords.getD st.currentIndex default
  let b := route.coords.getD (st.currentIndex + 1) default
  let ip := stepProgress st.currentIndex st.segmentProgress
  { st with currentIndex := ip.1, segmentProgress := ip.2
            ambulancePos := interpolatePoint a b ip.2 }

/-- driveTick: one 200 ms simulation tick (map panning omitted). -/
def driveTick (dist : Pt → Pt → ℚ) (st : Sim) : Sim :=
  if st.isDriving = false ∨ st.selectedRouteId = none then st
  else
    match st.selectedRouteId.bind findRoute with
    | none => st  -- unreachable: the page only ever selects catalog ids
    | some route =>
      if route.coords.length - 1 ≤ st.currentIndex then
        { st with timerOn := false, isDriving := false }
      else
        match getNextSignal (movedState st route) with
        | none =>
          { movedState st route with
            shownDistance := none, shownSignalId := none, shownMode := .normal }
        | some p => processSignal dist (movedState st route) p.1 p.2

/-- Nearest-waypoint search of startEmergencyDrive for one signal: linear scan
with strict improvement (best starts at Infinity, represented by none, and
bestIdx at 0), so the first index attaining the minimum wins. -/
def nearestWaypointIndex (dist : Pt → Pt → ℚ) (coords : List Pt) (loc : Pt) : ℕ :=
  (coords.enum.foldl
    (fun acc p =>
      match acc.1 with
      | none => (some (dist p.2 loc), p.1)
      | some best => if dist p.2 loc < best then (some (dist p.2 loc), p.1) else acc)
    ((none : Option ℚ), 0)).2

/-- startEmergencyDrive.  Returns the new state together with a flag that is
true exactly when the no-route-selected alert was shown.  The catalog lookup
is hoisted before the guarded body; with a non-catalog id the script would
fail at the route dereference, which the page cannot reach. -/
def startEmergencyDrive (dist : Pt → Pt → ℚ) (st : Sim) : Sim × Bool :=
  if st.selectedRouteId = none then (st, true)
  else if st.isDriving then (st, false)
  else
    match st.selectedRouteId.bind findRoute with
    | none => (st, false)  -- unreachable with catalog ids
    | some route =>
      let st1 := { st with emergencyMode := true }
      let st2 := resetDriveState st1
      let st3 := { st2 with isDriving := true
                            ambulancePos := route.coords.getD 0 default }
      let st4 := { st3 with signals := st3.signals.map fun (s : SignalRT) =>
        { s with nearestIndex := some (nearestWaypointIndex dist route.coords s.location)
                 minDistance := none, lastDistance := none
                 advanceTriggered := false, overrideActive := false, passed := false
                 state := .normal } }
      let st5 := { st4 with eventLog :=
        ("Selected route: " ++ route.name) :: ["Emergency drive started."] }
      ({ st5 with timerOn := true }, false)

/-- setSelectedRoute: record the id, and when it names a catalog route, move
the ambulance to the route start and drop the highlight (route line drawing
and card styling omitted). -/
def setSelectedRoute (routeId : String) (st : Sim) : Sim :=
  match findRoute routeId with
  | none => { st with selectedRouteId := some routeId }
  | some route =>
    { st with selectedRouteId := some routeId
              ambulancePos := route.coords.getD 0 default, routeHighlightOn := false }

/-- buildRouteCards acting on the simulation state: build the ranked card list
and auto-select the recommended (top-ranked) route. -/
def buildRouteCards (dist : Pt → Pt → ℚ) (predictedTraffic : Traffic) (st : Sim) : Sim :=
  match (buildRouteList dist predictedTraffic).head? with
  | some c => setSelectedRoute c.id st
  | none => st

/-- toRad: degrees to radians. -/
noncomputable def toRad (deg : ℝ) : ℝ :=
  deg * Real.pi / 180

/-- Math.atan2 (y, x), as the argument of the complex number x + y i.  The
script only ever calls it on the non-negative square roots of the haversine
formula, where this agrees with the JavaScript function. -/
noncomputable def atan2 (y x : ℝ) : ℝ :=
  Complex.arg ⟨x, y⟩

/-- The intermediate value x of distanceKm (the haversine of the central
angle): sin²(Δlat/2) + cos lat1 · cos lat2 · sin²(Δlon/2), all in radians. -/
noncomputable def haversineX (a b : ℝ × ℝ) : ℝ :=
  Real.sin (toRad (b.1 - a.1) / 2) ^ 2 +
    Real.cos (toRad a.1) * Real.cos (toRad b.1) * Real.sin (toRad (b.2 - a.2) / 2) ^ 2

/-- distanceKm: haversine great-circle distance with Earth radius R = 6371 km,
c = 2 · atan2(√x, √(1−x)). -/
noncomputable def distanceKm (a b : ℝ × ℝ) : ℝ :=
  6371 * (2 * atan2 (Real.sqrt (haversineX a b)) (Real.sqrt (1 - haversineX a b)))

theorem haversineX_comm (a b : ℝ × ℝ) : haversineX a b = haversineX b a := by
  unfold haversineX
  have h1 : toRad (a.1 - b.1) = -toRad (b.1 - a.1) := by unfold toRad; ring
  have h2 : toRad (a.2 - b.2) = -toRad (b.2 - a.2) := by unfold toRad; ring
  rw [h1, h2, neg_div, neg_div, Real.sin_neg, Real.sin_neg, neg_sq, neg_sq]
  ring

theorem haversineX_self (a : ℝ × ℝ) : haversineX a a = 0 := by
  unfold haversineX
  simp [toRad]

theorem mem_of_getLast?_eq_some {α : Type} {l : List α} {x : α}
    (h : l.getLast? = some x) : x ∈ l := by
  rw [List.getLast?_eq_some_iff] at h
  obtain ⟨ys, rfl⟩ := h
  simp

theorem find?_sorted_min {α : Type} (key : α → ℕ) (sat : α → Bool) :
    ∀ (l : List α) (x : α), l.Pairwise (fun u v => key u ≤ key v) →
      l.find? sat = some x → ∀ y ∈ l, sat y = true → key x ≤ key y := by
  intro l
  induction l with
  | nil => intro x _ hf; simp at hf
  | cons a t ih =>
    intro x hp hf y hy hsy
    rw [List.pairwise_cons] at hp
    by_cases ha : sat a = true
    · rw [List.find?_cons_of_pos _ ha] at hf
      obtain rfl : a = x := by injection hf
      rcases List.mem_cons.mp hy with rfl | hyt
      · exact Nat.le_refl _
      · exact hp.1 y hyt
    · rw [List.find?_cons_of_neg _ (by simpa using ha)] at hf
      rcases List.mem_cons.mp hy with rfl | hyt
      · exact absurd hsy ha
      · exact ih x hp.2 hf y hyt hsy

theorem getLast?_sorted_max {α : Type} (key : α → ℕ) :
    ∀ (l : List α) (x : α), l.Pairwise (fun u v => key u ≤ key v) →
      l.getLast? = some x → ∀ y ∈ l, key y ≤ key x := by
  intro l
  induction l with
  | nil => intro x _ hl; simp at hl
  | cons a t ih =>
    intro x hp hl y hy
    rw [List.pairwise_cons] at hp
    cases t with
    | nil =>
      simp at hl hy
      subst hl; subst hy
      exact Nat.le_refl _
    | cons b t2 =>
      rw [List.getLast?_cons_cons] at hl
      rcases List.mem_cons.mp hy with rfl | hyt
      · exact hp.1 x (mem_of_getLast?_eq_some hl)
      · exact ih x hp.2 hl y hyt

/-- C9: the haversine distance of the script is symmetric and vanishes on the
diagonal (it is a pure function of its two coordinate arguments, so it is
deterministic by construction). -/
theorem distanceKm_symm_and_self_eq_zero (a b : ℝ × ℝ) :
    distanceKm a b = distanceKm b a ∧ distanceKm a a = 0 := by
  constructor
  · unfold distanceKm
    rw [haversineX_comm]
  · unfold distanceKm
    rw [haversineX_self]
    have h1 : (⟨1, 0⟩ : ℂ) = 1 := by apply Complex.ext <;> simp
    simp [atan2, h1]


theorem sortedCandidatesOf_pairwise (st : Sim) :
    (sortedCandidatesOf st).Pairwise (fun u v => nIdx u ≤ nIdx v) :=
  List.sorted_insertionSort signalLE (candidatesOf st)

theorem mem_sortedCandidatesOf {st : Sim} {p : ℕ × SignalRT} :
    p ∈ sortedCandidatesOf st ↔ p ∈ candidatesOf st :=
  (List.perm_insertionSort signalLE (candidatesOf st)).mem_iff

theorem candidatesOf_spec {st : Sim} {p : ℕ × SignalRT} (h : p ∈ candidatesOf st) :
    st.signals[p.1]? = some p.2 ∧ p.2.passed = false ∧ p.2.nearestIndex.isSome := by
  unfold candidatesOf at h
  rw [List.mem_filter] at h
  obtain ⟨hmem, hcand⟩ := h
  unfold isCandidate at hcand
  rw [Bool.and_eq_true, Bool.not_eq_true'] at hcand
  obtain ⟨i, x⟩ := p
  exact ⟨List.mk_mem_enum_iff_getElem?.mp hmem, hcand.1, hcand.2⟩

theorem getNextSignal_mem {st : Sim} {p : ℕ × SignalRT} (h : getNextSignal st = some p) :
    p ∈ candidatesOf st := by
  unfold getNextSignal at h
  rcases hf : (sortedCandidatesOf st).find? (aheadOf st.currentIndex) with _ | q
  · rw [hf] at h
    exact mem_sortedCandidatesOf.mp (mem_of_getLast?_eq_some h)
  · rw [hf] at h
    obtain rfl : q = p := by injection h
    exact mem_sortedCandidatesOf.mp (List.mem_of_find?_eq_some hf)

theorem getNextSignal_none_iff {st : Sim} :
    getNextSignal st = none ↔ candidatesOf st = [] := by
  constructor
  · intro h
    unfold getNextSignal at h
    rcases hf : (sortedCandidatesOf st).find? (aheadOf st.currentIndex) with _ | q
    · rw [hf] at h
      have hs : sortedCandidatesOf st = [] := List.getLast?_eq_none_iff.mp h
      have hperm := List.perm_insertionSort signalLE (candidatesOf st)
      unfold sortedCandidatesOf at hs
      rw [hs] at hperm
      exact hperm.symm.eq_nil
    · rw [hf] at h
      cases h
  · intro h
    have hs : sortedCandidatesOf st = [] := by
      unfold sortedCandidatesOf
      rw [h]
      rfl
    unfold getNextSignal
    rw [hs]
    rfl

theorem getNextSignal_selection {st : Sim} {p : ℕ × SignalRT}
    (h : getNextSignal st = some p) :
    (aheadOf st.currentIndex p = true ∧
       ∀ q ∈ candidatesOf st, aheadOf st.currentIndex q = true → nIdx p ≤ nIdx q) ∨
    ((∀ q ∈ candidatesOf st, aheadOf st.currentIndex q = false) ∧
       ∀ q ∈ candidatesOf st, nIdx q ≤ nIdx p) := by
  unfold getNextSignal at h
  rcases hf : (sortedCandidatesOf st).find? (aheadOf st.currentIndex) with _ | w
  · rw [hf] at h
    right
    have hfn := List.find?_eq_none.mp hf
    refine ⟨fun q hq => ?_, fun q hq => ?_⟩
    · have := hfn q (mem_sortedCandidatesOf.mpr hq)
      simpa using this
    · exact getLast?_sorted_max nIdx _ p (sortedCandidatesOf_pairwise st) h q
        (mem_sortedCandidatesOf.mpr hq)
  · rw [hf] at h
    have hwp : w = p := by injection h
    subst hwp
    left
    refine ⟨List.find?_some hf, fun q hq hsat => ?_⟩
    exact find?_sorted_min nIdx (aheadOf st.currentIndex) _ w
      (sortedCandidatesOf_pairwise st) hf q (mem_sortedCandidatesOf.mpr hq) hsat

theorem handleAdvanceDetectionFor_fst_core (st : Sim) (s : SignalRT) (d : ℚ) :
    (handleAdvanceDetectionFor st s d).1.signals = st.signals ∧
    (handleAdvanceDetectionFor st s d).1.currentIndex = st.currentIndex ∧
    (handleAdvanceDetectionFor st s d).1.segmentProgress = st.segmentProgress ∧
    (handleAdvanceDetectionFor st s d).1.isDriving = st.isDriving ∧
    (handleAdvanceDetectionFor st s d).1.timerOn = st.timerOn ∧
    (handleAdvanceDetectionFor st s d).1.selectedRouteId = st.selectedRouteId ∧
    (handleAdvanceDetectionFor st s d).1.ambulancePos = st.ambulancePos := by
  unfold handleAdvanceDetectionFor
  repeat' split
  all_goals exact ⟨rfl, rfl, rfl, rfl, rfl, rfl, rfl⟩

theorem handleSignalOverrideFor_fst_core (st : Sim) (s : SignalRT) (d : ℚ) :
    (handleSignalOverrideFor st s d).1.signals = st.signals ∧
    (handleSignalOverrideFor st s d).1.currentIndex = st.currentIndex ∧
    (handleSignalOverrideFor st s d).1.segmentProgress = st.segmentProgress ∧
    (handleSignalOverrideFor st s d).1.isDriving = st.isDriving ∧
    (handleSignalOverrideFor st s d).1.timerOn = st.timerOn ∧
    (handleSignalOverrideFor st s d).1.selectedRouteId = st.selectedRouteId ∧
    (handleSignalOverrideFor st s d).1.ambulancePos = st.ambulancePos := by
  unfold handleSignalOverrideFor setSignalStateFor
  repeat' split
  all_goals exact ⟨rfl, rfl, rfl, rfl, rfl, rfl, rfl⟩

theorem handleAfterCrossingFor_fst_core (st : Sim) (s : SignalRT) (d : ℚ) :
    (handleAfterCrossingFor st s d).1.signals = st.signals ∧
    (handleAfterCrossingFor st s d).1.currentIndex = st.currentIndex ∧
    (handleAfterCrossingFor st s d).1.segmentProgress = st.segmentProgress ∧
    (handleAfterCrossingFor st s d).1.isDriving = st.isDriving ∧
    (handleAfterCrossingFor st s d).1.timerOn = st.timerOn ∧
    (handleAfterCrossingFor st s d).1.selectedRouteId = st.selectedRouteId ∧
    (handleAfterCrossingFor st s d).1.ambulancePos = st.ambulancePos := by
  unfold handleAfterCrossingFor crossingEffects setSignalStateFor
  repeat' split
  all_goals exact ⟨rfl, rfl, rfl, rfl, rfl, rfl, rfl⟩

theorem runHandlers_fst_core (st : Sim) (s : SignalRT) (d : ℚ) :
    (runHandlers st s d).1.signals = st.signals ∧
    (runHandlers st s d).1.currentIndex = st.currentIndex ∧
    (runHandlers st s d).1.segmentProgress = st.segmentProgress ∧
    (runHandlers st s d).1.isDriving = st.isDriving ∧
    (runHandlers st s d).1.timerOn = st.timerOn ∧
    (runHandlers st s d).1.selectedRouteId = st.selectedRouteId ∧
    (runHandlers st s d).1.ambulancePos = st.ambulancePos := by
  unfold runHandlers
  obtain ⟨a1, a2, a3, a4, a5, a6, a7⟩ := handleAdvanceDetectionFor_fst_core st s d
  obtain ⟨b1, b2, b3, b4, b5, b6, b7⟩ := handleSignalOverrideFor_fst_core
    (handleAdvanceDetectionFor st s d).1 (handleAdvanceDetectionFor st s d).2 d
  obtain ⟨c1, c2, c3, c4, c5, c6, c7⟩ := handleAfterCrossingFor_fst_core
    (handleSignalOverrideFor (handleAdvanceDetectionFor st s d).1
      (handleAdvanceDetectionFor st s d).2 d).1
    (handleSignalOverrideFor (handleAdvanceDetectionFor st s d).1
      (handleAdvanceDetectionFor st s d).2 d).2 d
  exact ⟨c1.trans (b1.trans a1), c2.trans (b2.trans a2), c3.trans (b3.trans a3),
         c4.trans (b4.trans a4), c5.trans (b5.trans a5), c6.trans (b6.trans a6),
         c7.trans (b7.trans a7)⟩

theorem handleSignalOverrideFor_snd_advance (st : Sim) (s : SignalRT) (d : ℚ) :
    (handleSignalOverrideFor st s d).2.advanceTriggered = s.advanceTriggered := by
  unfold handleSignalOverrideFor setSignalStateFor
  repeat' split
  all_goals rfl

theorem handleAfterCrossingFor_snd_advance (st : Sim) (s : SignalRT) (d : ℚ) :
    (handleAfterCrossingFor st s d).2.advanceTriggered = s.advanceTriggered := by
  unfold handleAfterCrossingFor crossingEffects setSignalStateFor
  repeat' split
  all_goals rfl

theorem handleAdvanceDetectionFor_snd_advance_mono (st : Sim) (s : SignalRT) (d : ℚ)
    (h : s.advanceTriggered = true) :
    (handleAdvanceDetectionFor st s d).2.advanceTriggered = true := by
  unfold handleAdvanceDetectionFor
  rw [if_pos h]
  exact h

theorem runHandlers_snd_advance_mono (st : Sim) (s : SignalRT) (d : ℚ)
    (h : s.advanceTriggered = true) :
    (runHandlers st s d).2.advanceTriggered = true := by
  unfold runHandlers
  rw [handleAfterCrossingFor_snd_advance, handleSignalOverrideFor_snd_advance]
  exact handleAdvanceDetectionFor_snd_advance_mono _ _ _ h

theorem trackedPair_fst_core (dist : Pt → Pt → ℚ) (st : Sim) (s0 : SignalRT) :
    (trackedPair dist st s0).1.signals = st.signals ∧
    (trackedPair dist st s0).1.currentIndex = st.currentIndex ∧
    (trackedPair dist st s0).1.segmentProgress = st.segmentProgress ∧
    (trackedPair dist st s0).1.isDriving = st.isDriving ∧
    (trackedPair dist st s0).1.timerOn = st.timerOn ∧
    (trackedPair dist st s0).1.selectedRouteId = st.selectedRouteId ∧
    (trackedPair dist st s0).1.ambulancePos = st.ambulancePos := by
  unfold trackedPair
  exact runHandlers_fst_core _ _ _

theorem trackedPair_snd_advance_mono (dist : Pt → Pt → ℚ) (st : Sim) (s0 : SignalRT)
    (h : s0.advanceTriggered = true) :
    (trackedPair dist st s0).2.advanceTriggered = true := by
  unfold trackedPair
  apply runHandlers_snd_advance_mono
  split
  · exact h
  · exact h

theorem processSignal_signals_set (dist : Pt → Pt → ℚ) (st : Sim) (i : ℕ) (s0 : SignalRT) :
    (processSignal dist st i s0).signals =
      st.signals.set i (trackedPair dist st s0).2 := by
  unfold processSignal
  rw [(trackedPair_fst_core _ _ _).1]

theorem processSignal_core (dist : Pt → Pt → ℚ) (st : Sim) (i : ℕ) (s0 : SignalRT) :
    (processSignal dist st i s0).currentIndex = st.currentIndex ∧
    (processSignal dist st i s0).segmentProgress = st.segmentProgress ∧
    (processSignal dist st i s0).isDriving = st.isDriving ∧
    (processSignal dist st i s0).timerOn = st.timerOn ∧
    (processSignal dist st i s0).selectedRouteId = st.selectedRouteId ∧
    (processSignal dist st i s0).ambulancePos = st.ambulancePos := by
  unfold processSignal
  obtain ⟨-, h2, h3, h4, h5, h6, h7⟩ := trackedPair_fst_core dist st s0
  exact ⟨h2, h3, h4, h5, h6, h7⟩

theorem driveTick_signals_cases (dist : Pt → Pt → ℚ) (st : Sim) :
    (driveTick dist st).signals = st.signals ∨
    ∃ route p, st.selectedRouteId.bind findRoute = some route ∧
      getNextSignal (movedState st route) = some p ∧
      (driveTick dist st).signals =
        st.signals.set p.1 (trackedPair dist (movedState st route) p.2).2 := by
  unfold driveTick
  split
  · left; rfl
  · split
    · left; rfl
    · rename_i route hroute
      split
      · left; rfl
      · split
        · left; rfl
        · rename_i p hnext
          right
          refine ⟨route, p, hroute, hnext, ?_⟩
          exact processSignal_signals_set dist (movedState st route) p.1 p.2

theorem driveTick_passed_slot (dist : Pt → Pt → ℚ) (st : Sim) (i : ℕ)
    (h : (st.signals.getD i default).passed = true) :
    (driveTick dist st).signals.getD i default = st.signals.getD i default := by
  rcases driveTick_signals_cases dist st with hsame | ⟨route, p, -, hnext, hset⟩
  · rw [hsame]
  · rw [hset]
    obtain ⟨hget, hpass, -⟩ := candidatesOf_spec (getNextSignal_mem hnext)
    have hget2 : st.signals[p.1]? = some p.2 := hget
    have hne : p.1 ≠ i := by
      intro he
      subst he
      rw [List.getD_eq_getElem?_getD, hget2, Option.getD_some] at h
      rw [h] at hpass
      exact absurd hpass (by decide)
    rw [List.getD_eq_getElem?_getD, List.getElem?_set_ne hne, ← List.getD_eq_getElem?_getD]

theorem driveTick_advance_slot (dist : Pt → Pt → ℚ) (st : Sim) (i : ℕ)
    (h : (st.signals.getD i default).advanceTriggered = true) :
    ((driveTick dist st).signals.getD i default).advanceTriggered = true := by
  rcases driveTick_signals_cases dist st with hsame | ⟨route, p, -, hnext, hset⟩
  · rw [hsame]; exact h
  · rw [hset]
    obtain ⟨hget, -, -⟩ := candidatesOf_spec (getNextSignal_mem hnext)
    have hget2 : st.signals[p.1]? = some p.2 := hget
    by_cases he : p.1 = i
    · subst he
      have hlt : p.1 < st.signals.length := by
        rcases List.getElem?_eq_some.mp hget2 with ⟨hl, -⟩
        exact hl
      rw [List.getD_eq_getElem?_getD, List.getElem?_set_self hlt, Option.getD_some]
      apply trackedPair_snd_advance_mono
      rw [List.getD_eq_getElem?_getD, hget2, Option.getD_some] at h
      exact h
    · rw [List.getD_eq_getElem?_getD, List.getElem?_set_ne he, ← List.getD_eq_getElem?_getD]
      exact h

/-- C5: for every location key and hour in 0-23 the traffic predictor computes
exactly the spec formula (peak hours [8,10] and [17,19], fixed per-key bias
with default 1, score threshold 4 for High and 3 for Medium), is a pure
function of (key, hour), and only takes values Low, Medium, High. -/
theorem predictTrafficLevel_correct (accidentKey : String) (hour : ℕ)
    (_hhour : hour ≤ 23) :
    predictTrafficLevel accidentKey hour = predictTrafficLevelSpec accidentKey hour ∧
    (predictTrafficLevel accidentKey hour = .Low ∨
     predictTrafficLevel accidentKey hour = .Medium ∨
     predictTrafficLevel accidentKey hour = .High) := by
  refine ⟨rfl, ?_⟩
  rcases predictTrafficLevel accidentKey hour with _ | _ | _
  · exact Or.inl rfl
  · exact Or.inr (Or.inl rfl)
  · exact Or.inr (Or.inr rfl)

theorem predictTrafficLevel_correct_witness :
    predictTrafficLevel "central" 9 = predictTrafficLevelSpec "central" 9 ∧
    (predictTrafficLevel "central" 9 = .Low ∨
     predictTrafficLevel "central" 9 = .Medium ∨
     predictTrafficLevel "central" 9 = .High) :=
  predictTrafficLevel_correct "central" 9 (by decide)

/-- C7: reset stops the timer and the driving flag, returns the waypoint index
and segment progress to their defaults, clears every signal's runtime state to
its initial values (mode Normal, nearestIndex unset, minimum distance Infinity,
last distance unset, flags false), and a subsequent tick leaves the reset state
completely unchanged, so no further position updates occur. -/
theorem resetDriveState_spec (dist : Pt → Pt → ℚ) (st : Sim) :
    (resetDriveState st).timerOn = false ∧
    (resetDriveState st).isDriving = false ∧
    (resetDriveState st).currentIndex = 0 ∧
    (resetDriveState st).segmentProgress = 0 ∧
    (∀ s ∈ (resetDriveState st).signals,
      s.state = .normal ∧ s.nearestIndex = none ∧ s.minDistance = none ∧
      s.lastDistance = none ∧ s.advanceTriggered = false ∧ s.overrideActive = false ∧
      s.passed = false) ∧
    driveTick dist (resetDriveState st) = resetDriveState st := by
  refine ⟨rfl, rfl, rfl, rfl, ?_, ?_⟩
  · intro s hs
    simp only [resetDriveState, setAllSignalsNormal, List.mem_map] at hs
    obtain ⟨a, -, rfl⟩ := hs
    exact ⟨rfl, rfl, rfl, rfl, rfl, rfl, rfl⟩
  · have h : (resetDriveState st).isDriving = false := rfl
    simp [driveTick, h]

theorem resetDriveState_spec_witness :
    (resetDriveState initSim).timerOn = false ∧
    (resetDriveState initSim).isDriving = false ∧
    (resetDriveState initSim).currentIndex = 0 ∧
    (resetDriveState initSim).segmentProgress = 0 ∧
    (∀ s ∈ (resetDriveState initSim).signals,
      s.state = .normal ∧ s.nearestIndex = none ∧ s.minDistance = none ∧
      s.lastDistance = none ∧ s.advanceTriggered = false ∧ s.overrideActive = false ∧
      s.passed = false) ∧
    driveTick (fun _ _ => 0) (resetDriveState initSim) = resetDriveState initSim :=
  resetDriveState_spec (fun _ _ => 0) initSim

/-- C8: starting a drive with no selected route only raises the alert and
leaves the state unchanged; starting while already driving is a no-op; with a
selected catalog route and no running drive it resets the session, marks
driving, precomputes every signal's nearest waypoint index, and starts the
timer. -/
theorem startEmergencyDrive_spec (dist : Pt → Pt → ℚ) (st : Sim) :
    (st.selectedRouteId = none → startEmergencyDrive dist st = (st, true)) ∧
    (st.selectedRouteId ≠ none → st.isDriving = true →
      startEmergencyDrive dist st = (st, false)) ∧
    (∀ rid route, st.selectedRouteId = some rid → findRoute rid = some route →
      st.isDriving = false →
      (startEmergencyDrive dist st).2 = false ∧
      (startEmergencyDrive dist st).1.isDriving = true ∧
      (startEmergencyDrive dist st).1.timerOn = true ∧
      (startEmergencyDrive dist st).1.currentIndex = 0 ∧
      (startEmergencyDrive dist st).1.segmentProgress = 0 ∧
      (startEmergencyDrive dist st).1.ambulancePos = route.coords.getD 0 default ∧
      (startEmergencyDrive dist st).1.signals = st.signals.map (fun s =>
        { s with nearestIndex := some (nearestWaypointIndex dist route.coords s.location)
                 minDistance := none, lastDistance := none, advanceTriggered := false
                 overrideActive := false, passed := false, state := .normal })) := by
  refine ⟨?_, ?_, ?_⟩
  · intro h
    unfold startEmergencyDrive
    rw [if_pos h]
  · intro h hd
    unfold startEmergencyDrive
    rw [if_neg h, if_pos hd]
  · intro rid route hsel hroute hnd
    unfold startEmergencyDrive
    rw [if_neg (by simp [hsel]), if_neg (by simp [hnd])]
    refine ⟨?_, ?_, ?_, ?_, ?_, ?_, ?_⟩ <;>
      (simp only [hsel, Option.some_bind, hroute, resetDriveState, setAllSignalsNormal,
        List.map_map]
       try rfl)

theorem startEmergencyDrive_spec_witness :
    startEmergencyDrive (fun _ _ => 0) initSim = (initSim, true) :=
  (startEmergencyDrive_spec (fun _ _ => 0) initSim).1 rfl

theorem setSelectedRoute_selectedRouteId (routeId : String) (st : Sim) :
    (setSelectedRoute routeId st).selectedRouteId = some routeId := by
  unfold setSelectedRoute
  split <;> rfl

/-- C6: every route card carries the baseline traffic adjusted toward the
prediction and the time (distance / 35 * 60) * multiplier (Low 1.0,
Medium 1.25, High 1.55); the card list is ordered ascending by severity rank
with ties broken by time only, for any distance function; and the top-ranked
card's route is auto-selected. -/
theorem routeRanking_spec (dist : Pt → Pt → ℚ) (predictedTraffic : Traffic) (st : Sim) :
    (∀ c ∈ buildRouteList dist predictedTraffic,
      ∃ r ∈ [routeFastest, routeAlternative, routeShortest],
        c.id = r.id ∧ c.distance = polylineDistanceKm dist r.coords ∧
        c.traffic = adjustTraffic predictedTraffic r.baseTraffic ∧
        c.timeMin = estimatedTimeMinutes c.distance c.traffic) ∧
    (buildRouteList dist predictedTraffic).Pairwise cardLE ∧
    (∃ c, (buildRouteList dist predictedTraffic).head? = some c ∧
      (buildRouteCards dist predictedTraffic st).selectedRouteId = some c.id) ∧
    (trafficMult .Low = 1 ∧ trafficMult .Medium = 1.25 ∧ trafficMult .High = 1.55) ∧
    (∀ d t, estimatedTimeMinutes d t = d / 35 * 60 * trafficMult t) ∧
    (adjustTraffic .High .Low = .Medium ∧ adjustTraffic .High .Medium = .High ∧
     adjustTraffic .Low .High = .Medium ∧
     ∀ p b, ¬(p = .High ∧ (b = .Low ∨ b = .Medium)) → ¬(p = .Low ∧ b = .High) →
       adjustTraffic p b = b) := by
  refine ⟨?_, ?_, ?_, ?_, ?_, ?_⟩
  · intro c hc
    have hc2 := (List.perm_insertionSort cardLE
      ([routeFastest, routeAlternative, routeShortest].map
        (routeCardOf dist predictedTraffic))).mem_iff.mp hc
    rw [List.mem_map] at hc2
    obtain ⟨r, hr, rfl⟩ := hc2
    exact ⟨r, hr, rfl, rfl, rfl, rfl⟩
  · exact List.sorted_insertionSort cardLE _
  · have hlen : (buildRouteList dist predictedTraffic).length = 3 := by
      unfold buildRouteList
      rw [(List.perm_insertionSort cardLE _).length_eq]
      rfl
    rcases hh : (buildRouteList dist predictedTraffic).head? with _ | c
    · rw [List.head?_eq_none_iff] at hh
      rw [hh] at hlen
      cases hlen
    · refine ⟨c, rfl, ?_⟩
      unfold buildRouteCards
      rw [hh]
      exact setSelectedRoute_selectedRouteId c.id st
  · have hLow : trafficMult .Low = 1 := by
      unfold trafficMult
      rw [if_pos rfl]
      norm_num
    have hMed : trafficMult .Medium = 1.25 := by
      unfold trafficMult
      rw [if_neg (by decide), if_pos rfl]
    have hHigh : trafficMult .High = 1.55 := by
      unfold trafficMult
      rw [if_neg (by decide), if_neg (by decide)]
    exact ⟨hLow, hMed, hHigh⟩
  · intro d t
    rfl
  · refine ⟨rfl, rfl, rfl, ?_⟩
    intro p b h1 h2
    unfold adjustTraffic
    rcases p with _ | _ | _ <;> rcases b with _ | _ | _ <;> simp_all

theorem routeRanking_spec_witness :
    (buildRouteList (fun _ _ => 0) .Low).Pairwise cardLE ∧
    (∃ c, (buildRouteList (fun _ _ => 0) .Low).head? = some c ∧
      (buildRouteCards (fun _ _ => 0) .Low initSim).selectedRouteId = some c.id) :=
  ⟨(routeRanking_spec (fun _ _ => 0) .Low initSim).2.1,
   (routeRanking_spec (fun _ _ => 0) .Low initSim).2.2.1⟩

theorem interpolatePoint_zero (a b : Pt) : interpolatePoint a b 0 = a := by
  unfold interpolatePoint
  simp

theorem stepProgress_lt (i : ℕ) (p : ℚ) (h : p + STEP < 1) :
    stepProgress i p = (i, p + STEP) := by
  unfold stepProgress
  rw [if_neg (not_le.mpr h)]

theorem stepProgress_ge (i : ℕ) (p : ℚ) (h : 1 ≤ p + STEP) :
    stepProgress i p = (i + 1, 0) := by
  unfold stepProgress
  rw [if_pos h]

theorem driveTick_stop (dist : Pt → Pt → ℚ) (st : Sim) (rid : String) (route : Route)
    (hdrive : st.isDriving = true) (hsel : st.selectedRouteId = some rid)
    (hroute : findRoute rid = some route)
    (hge : route.coords.length - 1 ≤ st.currentIndex) :
    driveTick dist st = { st with timerOn := false, isDriving := false } := by
  unfold driveTick
  rw [if_neg (by simp [hdrive, hsel])]
  simp only [hsel, Option.some_bind, hroute]
  rw [if_pos hge]

theorem driveTick_main (dist : Pt → Pt → ℚ) (st : Sim) (rid : String) (route : Route)
    (hdrive : st.isDriving = true) (hsel : st.selectedRouteId = some rid)
    (hroute : findRoute rid = some route)
    (hlt : st.currentIndex < route.coords.length - 1) :
    driveTick dist st =
      match getNextSignal (movedState st route) with
      | none =>
        { movedState st route with
          shownDistance := none, shownSignalId := none, shownMode := .normal }
      | some p => processSignal dist (movedState st route) p.1 p.2 := by
  unfold driveTick
  rw [if_neg (by simp [hdrive, hsel])]
  simp only [hsel, Option.some_bind, hroute]
  rw [if_neg (Nat.not_le.mpr hlt)]

theorem driveTick_move_fields (dist : Pt → Pt → ℚ) (st : Sim) (rid : String)
    (route : Route) (hdrive : st.isDriving = true) (hsel : st.selectedRouteId = some rid)
    (hroute : findRoute rid = some route)
    (hlt : st.currentIndex < route.coords.length - 1) :
    (driveTick dist st).currentIndex =
      (stepProgress st.currentIndex st.segmentProgress).1 ∧
    (driveTick dist st).segmentProgress =
      (stepProgress st.currentIndex st.segmentProgress).2 ∧
    (driveTick dist st).ambulancePos =
      interpolatePoint (route.coords.getD st.currentIndex default)
        (route.coords.getD (st.currentIndex + 1) default)
        (stepProgress st.currentIndex st.segmentProgress).2 := by
  rw [driveTick_main dist st rid route hdrive hsel hroute hlt]
  rcases hn : getNextSignal (movedState st route) with _ | p
  · exact ⟨rfl, rfl, rfl⟩
  · obtain ⟨h1, h2, -, -, -, h6⟩ := processSignal_core dist (movedState st route) p.1 p.2
    exact ⟨h1, h2, h6⟩

/-- C2 (amended): each tick while driving adds the fixed step 200/4200 to the
segment progress; on reaching 1 the waypoint index advances and progress
resets to 0; the displayed position is the linear interpolation between the
waypoint pair indexed by the tick's starting index, at the updated progress
(so on a wrap tick it equals the segment's starting waypoint rather than the
new current waypoint); and once the final waypoint index has been reached the
tick clears the timer and the driving flag and changes nothing else. -/
theorem driveTick_position_spec (dist : Pt → Pt → ℚ) (st : Sim) (rid : String)
    (route : Route) (hdrive : st.isDriving = true)
    (hsel : st.selectedRouteId = some rid) (hroute : findRoute rid = some route) :
    STEP = 200 / 4200 ∧
    (route.coords.length - 1 ≤ st.currentIndex →
      driveTick dist st = { st with timerOn := false, isDriving := false }) ∧
    (st.currentIndex < route.coords.length - 1 →
      (driveTick dist st).ambulancePos =
        interpolatePoint (route.coords.getD st.currentIndex default)
          (route.coords.getD (st.currentIndex + 1) default)
          (driveTick dist st).segmentProgress ∧
      (st.segmentProgress + STEP < 1 →
        (driveTick dist st).currentIndex = st.currentIndex ∧
        (driveTick dist st).segmentProgress = st.segmentProgress + STEP) ∧
      (1 ≤ st.segmentProgress + STEP →
        (driveTick dist st).currentIndex = st.currentIndex + 1 ∧
        (driveTick dist st).segmentProgress = 0 ∧
        (driveTick dist st).ambulancePos =
          route.coords.getD st.currentIndex default)) := by
  refine ⟨rfl, ?_, ?_⟩
  · intro hge
    exact driveTick_stop dist st rid route hdrive hsel hroute hge
  · intro hlt
    obtain ⟨h1, h2, h3⟩ := driveTick_move_fields dist st rid route hdrive hsel hroute hlt
    refine ⟨by rw [h3, h2], ?_, ?_⟩
    · intro hp
      rw [h1, h2, stepProgress_lt _ _ hp]
      exact ⟨rfl, rfl⟩
    · intro hp
      rw [h1, h2, h3, stepProgress_ge _ _ hp]
      exact ⟨rfl, rfl, interpolatePoint_zero _ _⟩

/-- Concrete driving state on the shortest route, used by witnesses. -/
def drivingShortestSim : Sim :=
  { initSim with isDriving := true, timerOn := true, selectedRouteId := some "shortest" }

theorem driveTick_position_spec_witness :
    STEP = 200 / 4200 ∧
    (routeShortest.coords.length - 1 ≤ drivingShortestSim.currentIndex →
      driveTick (fun _ _ => 0) drivingShortestSim =
        { drivingShortestSim with timerOn := false, isDriving := false }) ∧
    (drivingShortestSim.currentIndex < routeShortest.coords.length - 1 →
      (driveTick (fun _ _ => 0) drivingShortestSim).ambulancePos =
        interpolatePoint (routeShortest.coords.getD drivingShortestSim.currentIndex default)
          (routeShortest.coords.getD (drivingShortestSim.currentIndex + 1) default)
          (driveTick (fun _ _ => 0) drivingShortestSim).segmentProgress ∧
      (drivingShortestSim.segmentProgress + STEP < 1 →
        (driveTick (fun _ _ => 0) drivingShortestSim).currentIndex =
          drivingShortestSim.currentIndex ∧
        (driveTick (fun _ _ => 0) drivingShortestSim).segmentProgress =
          drivingShortestSim.segmentProgress + STEP) ∧
      (1 ≤ drivingShortestSim.segmentProgress + STEP →
        (driveTick (fun _ _ => 0) drivingShortestSim).currentIndex =
          drivingShortestSim.currentIndex + 1 ∧
        (driveTick (fun _ _ => 0) drivingShortestSim).segmentProgress = 0 ∧
        (driveTick (fun _ _ => 0) drivingShortestSim).ambulancePos =
          routeShortest.coords.getD drivingShortestSim.currentIndex default)) :=
  driveTick_position_spec (fun _ _ => 0) drivingShortestSim "shortest" routeShortest
    rfl rfl rfl

/-- Concrete mid-drive state one step before a waypoint wrap, with no signal
candidates, used to exhibit the displayed position on a wrap tick. -/
def c2State : Sim :=
  { initSim with isDriving := true, timerOn := true
                 selectedRouteId := some "shortest"
                 currentIndex := 0, segmentProgress := 20 / 21
                 signals := [] }

/-- C2 counterexample: on the tick that wraps to waypoint index 1 with progress
0, the displayed ambulance position is waypoint 0, not the interpolation
between the new current waypoint 1 and the next waypoint 2 at progress 0. -/
theorem c2_counterexample :
    (driveTick (fun _ _ => 0) c2State).currentIndex = 1 ∧
    (driveTick (fun _ _ => 0) c2State).segmentProgress = 0 ∧
    (driveTick (fun _ _ => 0) c2State).ambulancePos ≠
      interpolatePoint (routeShortest.coords.getD 1 default)
        (routeShortest.coords.getD 2 default) 0 := by
  have hlt : c2State.currentIndex < routeShortest.coords.length - 1 := by
    show 0 < routeShortest.coords.length - 1
    norm_num [routeShortest]
  have hsp : stepProgress c2State.currentIndex c2State.segmentProgress = (1, 0) := by
    have h := stepProgress_ge c2State.currentIndex c2State.segmentProgress
      (by show (1 : ℚ) ≤ 20 / 21 + STEP
          norm_num [STEP, TICK_MS, SEGMENT_TIME_MS])
    rw [h]
    rfl
  obtain ⟨h1, h2, h3⟩ := driveTick_move_fields (fun _ _ => 0) c2State "shortest"
    routeShortest rfl rfl rfl hlt
  rw [hsp] at h1 h2 h3
  refine ⟨h1, h2, ?_⟩
  rw [h3, interpolatePoint_zero, interpolatePoint_zero]
  show routeShortest.coords.getD 0 default ≠ routeShortest.coords.getD 1 default
  simp only [routeShortest, List.getD_cons_zero, List.getD_cons_succ]
  intro hcontra
  have hfst := congrArg Prod.fst hcontra
  norm_num at hfst

/-- Drive-session invariant of the data model: the fractional progress lies in
[0, 1) and the waypoint index stays within the selected route's waypoints. -/
def DriveInv (st : Sim) : Prop :=
  0 ≤ st.segmentProgress ∧ st.segmentProgress < 1 ∧
  ∀ rid route, st.selectedRouteId = some rid → findRoute rid = some route →
    st.currentIndex ≤ route.coords.length - 1

theorem stepProgress_inv (i : ℕ) (p : ℚ) (len1 : ℕ) (h0 : 0 ≤ p) (hlt : i < len1) :
    0 ≤ (stepProgress i p).2 ∧ (stepProgress i p).2 < 1 ∧ (stepProgress i p).1 ≤ len1 := by
  unfold stepProgress
  split
  · exact ⟨le_refl 0, by norm_num, hlt⟩
  · rename_i hns
    refine ⟨add_nonneg h0 (by norm_num [STEP, TICK_MS, SEGMENT_TIME_MS]), ?_, hlt.le⟩
    exact lt_of_not_ge hns

/-- C10 (amended): reset and drive start establish the session invariant
0 ≤ progress < 1 and currentIndex within the selected route's waypoint bounds,
and every tick preserves it whenever it held before the tick; but selecting a
route mid-drive leaves the waypoint index, segment progress and driving flag
unchanged, so switching to a shorter route can put the index beyond the new
route's last waypoint, after which the invariant is violated and the next tick
(which only stops the drive) does not restore it. -/
theorem driveSession_invariant (dist : Pt → Pt → ℚ) (st : Sim) (hinv : DriveInv st) :
    DriveInv (driveTick dist st) ∧ DriveInv (resetDriveState st) ∧
    DriveInv (startEmergencyDrive dist st).1 ∧
    (∀ rid, (setSelectedRoute rid st).currentIndex = st.currentIndex ∧
      (setSelectedRoute rid st).segmentProgress = st.segmentProgress ∧
      (setSelectedRoute rid st).isDriving = st.isDriving) := by
  refine ⟨?_, ?_, ?_, ?_⟩
  · unfold driveTick
    split
    · exact hinv
    · split
      · exact hinv
      · rename_i route hroute
        split
        · exact ⟨hinv.1, hinv.2.1, fun rid2 route2 hsel2 hroute2 =>
            hinv.2.2 rid2 route2 hsel2 hroute2⟩
        · rename_i hnotle
          have hlt2 : st.currentIndex < route.coords.length - 1 := Nat.not_le.mp hnotle
          obtain ⟨hp0, hp1, hile⟩ := stepProgress_inv st.currentIndex st.segmentProgress
            (route.coords.length - 1) hinv.1 hlt2
          have hfin : ∀ rid2 route2, st.selectedRouteId = some rid2 →
              findRoute rid2 = some route2 →
              (stepProgress st.currentIndex st.segmentProgress).1 ≤
                route2.coords.length - 1 := by
            intro rid2 route2 hsel2 hroute2
            rw [hsel2] at hroute
            simp only [Option.some_bind] at hroute
            rw [hroute2] at hroute
            have heq : route2 = route := by injection hroute
            rw [heq]
            exact hile
          split
          · exact ⟨hp0, hp1, fun rid2 route2 hsel2 hroute2 => hfin rid2 route2 hsel2 hroute2⟩
          · rename_i p hp
            obtain ⟨h1, h2, -, -, h5, -⟩ := processSignal_core dist (movedState st route) p.1 p.2
            refine ⟨?_, ?_, ?_⟩
            · rw [h2]; exact hp0
            · rw [h2]; exact hp1
            · intro rid2 route2 hsel2 hroute2
              rw [h1]
              rw [h5] at hsel2
              exact hfin rid2 route2 hsel2 hroute2
  · exact ⟨le_refl 0, by show (0 : ℚ) < 1; norm_num, fun _ _ _ _ => Nat.zero_le _⟩
  · unfold startEmergencyDrive
    split
    · exact hinv
    · split
      · exact hinv
      · split
        · exact hinv
        · exact ⟨le_refl 0, by show (0 : ℚ) < 1; norm_num, fun _ _ _ _ => Nat.zero_le _⟩
  · intro rid
    unfold setSelectedRoute
    split <;> exact ⟨rfl, rfl, rfl⟩

theorem driveSession_invariant_witness :
    DriveInv (driveTick (fun _ _ => 0) initSim) ∧
    DriveInv (resetDriveState initSim) ∧
    DriveInv (startEmergencyDrive (fun _ _ => 0) initSim).1 ∧
    (setSelectedRoute "shortest" initSim).currentIndex = initSim.currentIndex := by
  have h := driveSession_invariant (fun _ _ => 0) initSim
    ⟨le_refl 0, by show (0 : ℚ) < 1; norm_num, fun rid route hx _ => by cases hx⟩
  exact ⟨h.1, h.2.1, h.2.2.1, (h.2.2.2 "shortest").1⟩

/-- Mid-drive state on the fastest route (8 waypoints) at waypoint index 6,
about to have a shorter route selected underneath it. -/
def c10PreState : Sim :=
  { initSim with isDriving := true, timerOn := true
                 selectedRouteId := some "fastest"
                 currentIndex := 6, segmentProgress := 0
                 signals := [] }

/-- C10 counterexample: the session invariant holds while driving the fastest
route at waypoint index 6, but selecting the shortest route (last waypoint
index 4) keeps the index at 6, so the bound currentIndex ≤ last waypoint index
fails, and the next tick — an operation the claim covers — leaves the index at
6 as well: after that tick the claimed invariant is still violated. -/
theorem c10_counterexample :
    DriveInv c10PreState ∧
    (setSelectedRoute "shortest" c10PreState).currentIndex = 6 ∧
    (setSelectedRoute "shortest" c10PreState).selectedRouteId = some "shortest" ∧
    findRoute "shortest" = some routeShortest ∧
    routeShortest.coords.length - 1 = 4 ∧
    ¬DriveInv (setSelectedRoute "shortest" c10PreState) ∧
    (driveTick (fun _ _ => 0) (setSelectedRoute "shortest" c10PreState)).currentIndex
      = 6 ∧
    ¬DriveInv (driveTick (fun _ _ => 0) (setSelectedRoute "shortest" c10PreState)) := by
  have hsel := setSelectedRoute_selectedRouteId "shortest" c10PreState
  have hstop : driveTick (fun _ _ => 0) (setSelectedRoute "shortest" c10PreState) =
      { setSelectedRoute "shortest" c10PreState with
        timerOn := false, isDriving := false } :=
    driveTick_stop (fun _ _ => 0) (setSelectedRoute "shortest" c10PreState)
      "shortest" routeShortest rfl hsel rfl
      (by show routeShortest.coords.length - 1 ≤ 6; norm_num [routeShortest])
  refine ⟨?_, rfl, hsel, rfl, rfl, ?_, ?_, ?_⟩
  · refine ⟨le_refl 0, by show (0 : ℚ) < 1; norm_num, ?_⟩
    intro rid route hx hr
    have hrid : rid = "fastest" := by
      injection hx with h2
      exact h2.symm
    subst hrid
    rw [show findRoute "fastest" = some routeFastest from rfl] at hr
    have hrt : routeFastest = route := by injection hr
    rw [← hrt]
    show (6 : ℕ) ≤ routeFastest.coords.length - 1
    norm_num [routeFastest]
  · intro h
    have h6 : (6 : ℕ) ≤ 4 := h.2.2 "shortest" routeShortest hsel rfl
    exact absurd h6 (by decide)
  · rw [hstop]
    rfl
  · intro h
    rw [hstop] at h
    have h6 : (6 : ℕ) ≤ 4 := h.2.2 "shortest" routeShortest hsel rfl
    exact absurd h6 (by decide)

/-- C4: the advance-detection transition fires exactly when the distance to the
evaluated signal is within 3.0 km and its flag is not yet set; its effects are
setting the flag, marking advance-detection and auto-control active,
highlighting the route and logging an event; once the flag is set the handler
is a no-op, so it fires at most once per signal per drive (ticks never clear
the flag); and a tick leaves a signal already marked passed completely
unchanged, so the transition never refires after the signal passes. -/
theorem advanceDetection_spec (dist : Pt → Pt → ℚ) (st : Sim) (s : SignalRT)
    (d : ℚ) (i : ℕ) :
    (s.advanceTriggered = false → d ≤ ADVANCE_DETECTION_KM →
      handleAdvanceDetectionFor st s d =
        ({ st with advanceDetectionUI := true, autoControlUI := true
                   routeHighlightOn := true
                   eventLog :=
                     (s.id ++ ": 3 km detection triggered. Preparing signal override.")
                       :: st.eventLog },
         { s with advanceTriggered := true })) ∧
    (s.advanceTriggered = false → ADVANCE_DETECTION_KM < d →
      handleAdvanceDetectionFor st s d = (st, s)) ∧
    (s.advanceTriggered = true → handleAdvanceDetectionFor st s d = (st, s)) ∧
    ((st.signals.getD i default).passed = true →
      (driveTick dist st).signals.getD i default = st.signals.getD i default) ∧
    ((st.signals.getD i default).advanceTriggered = true →
      ((driveTick dist st).signals.getD i default).advanceTriggered = true) := by
  refine ⟨?_, ?_, ?_, driveTick_passed_slot dist st i, driveTick_advance_slot dist st i⟩
  · intro hf hd
    unfold handleAdvanceDetectionFor
    rw [if_neg (by simp [hf]), if_pos hd]
  · intro hf hd
    unfold handleAdvanceDetectionFor
    rw [if_neg (by simp [hf]), if_neg (not_le.mpr hd)]
  · intro ht
    unfold handleAdvanceDetectionFor
    rw [if_pos ht]

/-- Concrete un-triggered signal used by witnesses. -/
def c4Signal : SignalRT :=
  { id := "S1", location := (0, 0), state := .normal, nearestIndex := some 0
    minDistance := none, lastDistance := none
    advanceTriggered := false, overrideActive := false, passed := false }

theorem advanceDetection_spec_witness :
    handleAdvanceDetectionFor initSim c4Signal 1 =
      ({ initSim with advanceDetectionUI := true, autoControlUI := true
                      routeHighlightOn := true
                      eventLog :=
                        ["S1" ++ ": 3 km detection triggered. Preparing signal override."] },
       { c4Signal with advanceTriggered := true }) :=
  (advanceDetection_spec (fun _ _ => 0) initSim c4Signal 1 0).1 rfl
    (by norm_num [ADVANCE_DETECTION_KM])

theorem getNextSignal_congr (st1 st2 : Sim) (hs : st1.signals = st2.signals)
    (hc : st1.currentIndex = st2.currentIndex) :
    getNextSignal st1 = getNextSignal st2 := by
  unfold getNextSignal sortedCandidatesOf candidatesOf
  rw [hs, hc]

/-- C3 (amended): getNextSignal returns no signal exactly when there is no
un-passed signal with a computed nearest index (in particular when all signals
are passed); a returned signal is an un-passed entry of the signal array with
a computed nearest index, and it is either the candidate with the smallest
nearest index among those with nearestIndex + 1 ≥ currentIndex (so a candidate
exactly one behind the ambulance can win, even over one at or ahead of the
current index), or, when no such candidate exists, a candidate with the
largest nearest index; and a tick modifies at most this one selected signal. -/
theorem nextSignal_selection_spec (st : Sim) :
    ((∀ s ∈ st.signals, s.passed = true) → getNextSignal st = none) ∧
    (getNextSignal st = none ↔ candidatesOf st = []) ∧
    (∀ p, getNextSignal st = some p →
      st.signals[p.1]? = some p.2 ∧ p.2.passed = false ∧ p.2.nearestIndex.isSome ∧
      ((aheadOf st.currentIndex p = true ∧
         ∀ q ∈ candidatesOf st, aheadOf st.currentIndex q = true → nIdx p ≤ nIdx q) ∨
       ((∀ q ∈ candidatesOf st, aheadOf st.currentIndex q = false) ∧
         ∀ q ∈ candidatesOf st, nIdx q ≤ nIdx p))) ∧
    (∀ dist, (driveTick dist st).signals = st.signals ∨
      ∃ j s4, st.signals[j]? ≠ none ∧ (st.signals.getD j default).passed = false ∧
        (driveTick dist st).signals = st.signals.set j s4) := by
  refine ⟨?_, getNextSignal_none_iff, ?_, ?_⟩
  · intro hall
    rw [getNextSignal_none_iff]
    unfold candidatesOf
    rw [List.filter_eq_nil_iff]
    rintro ⟨i, x⟩ hp
    have hx : st.signals[i]? = some x := List.mk_mem_enum_iff_getElem?.mp hp
    have hmem : x ∈ st.signals := List.getElem?_mem hx
    unfold isCandidate
    simp [hall x hmem]
  · intro p hp
    obtain ⟨hg, hpass, hni⟩ := candidatesOf_spec (getNextSignal_mem hp)
    exact ⟨hg, hpass, hni, getNextSignal_selection hp⟩
  · intro dist
    rcases driveTick_signals_cases dist st with h | ⟨route, p, -, hnext, hset⟩
    · exact Or.inl h
    · right
      obtain ⟨hg, hpass, -⟩ := candidatesOf_spec (getNextSignal_mem hnext)
      have hg2 : st.signals[p.1]? = some p.2 := hg
      refine ⟨p.1, (trackedPair dist (movedState st route) p.2).2, ?_, ?_, hset⟩
      · rw [hg2]; simp
      · rw [List.getD_eq_getElem?_getD, hg2, Option.getD_some]; exact hpass

theorem nextSignal_selection_spec_witness :
    getNextSignal initSim = none :=
  (nextSignal_selection_spec initSim).2.1.mpr rfl

/-- Un-passed signal whose nearest waypoint index equals the ambulance's
current index 5. -/
def c3SignalAtCurrent : SignalRT :=
  { id := "B", location := (0, 0), state := .normal, nearestIndex := some 5
    minDistance := none, lastDistance := none
    advanceTriggered := false, overrideActive := false, passed := false }

/-- Un-passed signal whose nearest waypoint index 4 is strictly behind the
ambulance's current index 5. -/
def c3SignalBehind : SignalRT :=
  { id := "A", location := (0, 0), state := .normal, nearestIndex := some 4
    minDistance := none, lastDistance := none
    advanceTriggered := false, overrideActive := false, passed := false }

/-- State with currentIndex 5 and both signals available. -/
def c3State : Sim :=
  { initSim with currentIndex := 5
                 signals := [c3SignalAtCurrent, c3SignalBehind] }

/-- C3 counterexample: with the ambulance at waypoint index 5, a candidate
whose nearest index is 4 (strictly behind) is selected in preference to the
candidate whose nearest index is exactly the current index 5, because the loop
accepts any candidate with currentIndex ≤ nearestIndex + 1 in ascending
nearest-index order. -/
theorem c3_counterexample :
    getNextSignal c3State = some (1, c3SignalBehind) ∧
    c3SignalBehind.nearestIndex = some 4 ∧
    c3State.currentIndex = 5 ∧
    c3SignalAtCurrent ∈ c3State.signals ∧
    c3SignalAtCurrent.passed = false ∧
    c3SignalAtCurrent.nearestIndex = some c3State.currentIndex := by
  refine ⟨rfl, rfl, rfl, ?_, rfl, rfl⟩
  exact List.mem_cons_self _ _

/-- C1 (amended): for a tracked signal that is not yet passed and already has a
recorded last distance, the primary crossing rule (override active, minimum
recorded distance within 0.40 km, and current distance more than 0.03 km above
that minimum or waypoint-index past the signal's nearest index, or at it with
progress at least 0.6) applies the crossing effects; the fallback rule (last
recorded distance within 0.40 km, current distance strictly above it and at
least 0.15 km) applies the same effects and is only reached when the primary
rule does not fire; otherwise the tick only records the current distance.  On
a signal's very first crossing evaluation (no recorded last distance) only the
distance is recorded, even when the primary condition already holds.  The
crossing effects mark the signal passed, clear the override, return the mode to
Normal, clear the auto-control, advance-detection and highlight indicators, and
record the distance. -/
theorem crossing_spec (st : Sim) (s : SignalRT) (d last : ℚ)
    (hpass : s.passed = false) (hlast : s.lastDistance = some last) :
    (s.overrideActive = true ∧ closeEnough s ∧
        (movingAwayFromMin s d ∨ passedIndex st s) →
      handleAfterCrossingFor st s d = crossingEffects st s d) ∧
    (¬(s.overrideActive = true ∧ closeEnough s ∧
        (movingAwayFromMin s d ∨ passedIndex st s)) →
      s.overrideActive = true ∧ last ≤ OVERRIDE_START_KM ∧ d > last ∧
        d ≥ OVERRIDE_END_KM →
      handleAfterCrossingFor st s d = crossingEffects st s d) ∧
    (¬(s.overrideActive = true ∧ closeEnough s ∧
        (movingAwayFromMin s d ∨ passedIndex st s)) →
      ¬(s.overrideActive = true ∧ last ≤ OVERRIDE_START_KM ∧ d > last ∧
        d ≥ OVERRIDE_END_KM) →
      handleAfterCrossingFor st s d = (st, { s with lastDistance := some d })) ∧
    ((crossingEffects st s d).2.passed = true ∧
     (crossingEffects st s d).2.overrideActive = false ∧
     (crossingEffects st s d).2.state = .normal ∧
     (crossingEffects st s d).2.lastDistance = some d ∧
     (crossingEffects st s d).1.autoControlUI = false ∧
     (crossingEffects st s d).1.advanceDetectionUI = false ∧
     (crossingEffects st s d).1.routeHighlightOn = false ∧
     (crossingEffects st s d).1.shownMode = .normal) := by
  refine ⟨?_, ?_, ?_, rfl, rfl, rfl, rfl, rfl, rfl, rfl, rfl⟩
  · intro h
    unfold handleAfterCrossingFor
    rw [if_neg (by simp [hpass])]
    simp only [hlast]
    rw [if_pos h]
  · intro hnp hf
    unfold handleAfterCrossingFor
    rw [if_neg (by simp [hpass])]
    simp only [hlast]
    rw [if_neg hnp, if_pos hf]
  · intro hnp hnf
    unfold handleAfterCrossingFor
    rw [if_neg (by simp [hpass])]
    simp only [hlast]
    rw [if_neg hnp, if_neg hnf]

/-- Concrete signal with a recorded last distance and no override, used by the
crossing witness. -/
def c1WitSignal : SignalRT :=
  { id := "S1", location := (0, 0), state := .normal, nearestIndex := some 0
    minDistance := some 1, lastDistance := some 1
    advanceTriggered := true, overrideActive := false, passed := false }

theorem crossing_spec_witness :
    handleAfterCrossingFor initSim c1WitSignal 2 =
      (initSim, { c1WitSignal with lastDistance := some 2 }) :=
  (crossing_spec initSim c1WitSignal 2 1 rfl rfl).2.2.1
    (by simp [c1WitSignal]) (by simp [c1WitSignal])

/-- Signal being tracked for the first time: no recorded distances yet, nearest
waypoint index 0, nothing triggered. -/
def c1Signal : SignalRT :=
  { id := "S1", location := (0, 0), state := .normal, nearestIndex := some 0
    minDistance := none, lastDistance := none
    advanceTriggered := false, overrideActive := false, passed := false }

/-- Mid-drive state at waypoint index 1 (past the signal's nearest index 0)
about to evaluate c1Signal for the first time. -/
def c1State : Sim :=
  { initSim with isDriving := true, timerOn := true
                 selectedRouteId := some "shortest"
                 currentIndex := 1, segmentProgress := 0
                 signals := [c1Signal] }

/-- Value of the tracked signal after the tick that first evaluates c1Signal
at distance 1/5 km. -/
def c1Result : SignalRT :=
  { id := "S1", location := (0, 0), state := .override, nearestIndex := some 0
    minDistance := some (1 / 5), lastDistance := some (1 / 5)
    advanceTriggered := true, overrideActive := true, passed := false }

theorem c1_trackedPair (st : Sim) :
    (trackedPair (fun _ _ => 1 / 5) st c1Signal).2 = c1Result := by
  have h3 : ((1 : ℚ) / 5) ≤ ADVANCE_DETECTION_KM := by
    norm_num [ADVANCE_DETECTION_KM]
  have h04 : ((1 : ℚ) / 5) ≤ OVERRIDE_START_KM := by
    norm_num [OVERRIDE_START_KM]
  simp only [trackedPair, runHandlers, improvesMin, handleAdvanceDetectionFor,
    handleSignalOverrideFor, handleAfterCrossingFor, setSignalStateFor,
    c1Signal, c1Result, h3, h04, if_true, ite_true, Bool.false_eq_true,
    ite_false, if_false, and_true, true_and, and_self]

/-- C1 counterexample: on the tick that first evaluates this signal, override
becomes active, the recorded minimum distance (1/5 km) is within 0.40 km, and
the current waypoint index 1 is past the signal's nearest index 0 — the
claim's primary crossing condition holds — yet the signal is not marked
passed: the handler only records the distance because no last distance existed
before this tick. -/
theorem c1_counterexample :
    ((driveTick (fun _ _ => 1 / 5) c1State).signals.getD 0 default).passed = false ∧
    ((driveTick (fun _ _ => 1 / 5) c1State).signals.getD 0 default).overrideActive
      = true ∧
    ((driveTick (fun _ _ => 1 / 5) c1State).signals.getD 0 default).minDistance
      = some (1 / 5) ∧
    ((1 : ℚ) / 5) ≤ OVERRIDE_START_KM ∧
    (driveTick (fun _ _ => 1 / 5) c1State).currentIndex = 1 ∧
    ((driveTick (fun _ _ => 1 / 5) c1State).signals.getD 0 default).nearestIndex
      = some 0 := by
  have hlt : c1State.currentIndex < routeShortest.coords.length - 1 := by
    show 1 < routeShortest.coords.length - 1
    norm_num [routeShortest]
  have hmove : stepProgress c1State.currentIndex c1State.segmentProgress =
      (1, 0 + STEP) :=
    stepProgress_lt 1 0 (by norm_num [STEP, TICK_MS, SEGMENT_TIME_MS])
  have hc : (movedState c1State routeShortest).currentIndex = c1State.currentIndex := by
    show (stepProgress c1State.currentIndex c1State.segmentProgress).1 =
      c1State.currentIndex
    rw [hmove]
    rfl
  have hnext : getNextSignal (movedState c1State routeShortest) =
      some (0, c1Signal) := by
    rw [getNextSignal_congr (movedState c1State routeShortest) c1State rfl hc]
    rfl
  have hmain0 := driveTick_main (fun _ _ => 1 / 5) c1State "shortest" routeShortest
    rfl rfl rfl hlt
  rw [hnext] at hmain0
  have hmain : driveTick (fun _ _ => 1 / 5) c1State =
      processSignal (fun _ _ => 1 / 5) (movedState c1State routeShortest) 0 c1Signal :=
    hmain0
  have hsig : (driveTick (fun _ _ => 1 / 5) c1State).signals.getD 0 default
      = c1Result := by
    rw [hmain, processSignal_signals_set, c1_trackedPair]
    rfl
  have hidx : (driveTick (fun _ _ => 1 / 5) c1State).currentIndex = 1 := by
    rw [hmain]
    rw [(processSignal_core (fun _ _ => 1 / 5) (movedState c1State routeShortest)
      0 c1Signal).1]
    rw [hc]
    rfl
  rw [hsig]
  exact ⟨rfl, rfl, rfl, by norm_num [OVERRIDE_START_KM], hidx, rfl⟩
